import Mathlib

/-
Shallow embedding of the callback-interception subsystem of `o2-get-token`:
`src/lib/auth_server.rs` (the local HTTP listener channel) and
`src/auth_browser.rs` (the automated-browser channel).

Conventions used throughout:
* Machine integers (Rust `u64`) are `Nat` with the `2 ^ 64` bound made
  explicit where the source's parse can reject an out-of-range value.
* `SystemTime` is seconds since the epoch, a `Nat`;
  `SystemTime::now().add(Duration::from_secs(e))` becomes `now + e`.
* A Rust closure returning `Option<T>` whose body may also panic through
  `expect`/`unwrap` is modelled by `VOutcome`: `resolved` for `Some`,
  `ignored` for `None`, `panicked` for a panic with its message.
* HTTP requests and intercepted browser events are modelled after URL
  parsing: the query pairs produced by `Url::query_pairs`, the origin and
  path of the request URL, the body the listener reads from the stream and
  the `post_data` the browser event carries are fields of one record.
* The asynchronous races (`tokio::select!`) are modelled by the arrival
  times of each branch; simultaneous readiness is nondeterministic in the
  source, the model fixes an arbitrary tie order and no theorem below
  depends on a tie.
-/

namespace Doken

/-- Model of Rust's `str::parse::<u64>`: an optional leading plus sign, then
at least one ASCII digit, and the value must fit in 64 bits; every other
string is a parse error, `none`.  (Characters are handled as the string's
character list so the definition reduces by computation.) -/
def parseU64 (s : String) : Option Nat :=
  let t := match s.data with
    | '+' :: rest => rest
    | l => l
  if t = [] then none
  else if t.all Char.isDigit then
    let v := t.foldl (fun a c => a * 10 + (c.toNat - 48)) 0
    if v < 2 ^ 64 then some v else none
  else none

/-- Split a character list on a separator character (the groups between the
separators, in order; `n` separators give `n + 1` groups). -/
def splitSep (sep : Char) : List Char → List (List Char)
  | [] => [[]]
  | c :: cs =>
    if c = sep then [] :: splitSep sep cs
    else
      match splitSep sep cs with
      | [] => [[c]]
      | g :: gs => (c :: g) :: gs

/-- Split a character list at its first occurrence of `sep`: the part before
it and the part after it (the whole list and an empty remainder when `sep`
does not occur). -/
def splitAtFirst (sep : Char) : List Char → List Char × List Char
  | [] => ([], [])
  | c :: cs =>
    if c = sep then ([], cs)
    else
      let r := splitAtFirst sep cs
      (c :: r.1, r.2)

/-- Model of `form_urlencoded::parse`: split the body on `&`, skip empty
segments, and split each segment at its first `=` (a segment without `=` has
an empty value).  Percent- and plus-decoding are omitted: every body
considered in the theorems below is decoding-free. -/
def form_urlencoded_parse (body : String) : List (String × String) :=
  ((splitSep '&' body.data).filter (fun seg => seg ≠ [])).map fun seg =>
    let p := splitAtFirst '=' seg
    (String.mk p.1, String.mk p.2)

/-- Iterator `find` as used on `url.query_pairs()` and on the parsed form
parameters: the first pair whose name equals `name`. -/
def findParam (params : List (String × String)) (name : String) :
    Option (String × String) :=
  params.find? fun qp => qp.1 = name

/-- Result of running one of the validator closures on a single event:
`resolved` models `Some`, `ignored` models `None`, and `panicked` models an
`expect`/`unwrap` panic (which kills the task running the closure). -/
inductive VOutcome (α : Type) where
  | resolved : α → VOutcome α
  | ignored : VOutcome α
  | panicked : String → VOutcome α
deriving DecidableEq, Repr

/-- Token data exactly as constructed in both `get_token_data` closures (the
struct itself lives in `token_info.rs`; its four fields are taken from the
construction sites in `src/lib/auth_server.rs` and `src/auth_browser.rs`). -/
structure TokenInfo where
  access_token : String
  refresh_token : Option String
  expires : Option Nat
  scope : Option String
deriving DecidableEq, Repr

/-- One incoming request (listener) or intercepted request event (browser),
after URL parsing: its method, the origin and path of its URL, the query
pairs of the URL, the body the listener reads from the request stream, and
the optional `post_data` of a browser network event. -/
structure HttpRequest where
  method : String
  origin : String
  path : String
  queryPairs : List (String × String)
  body : String
  post_data : Option String
deriving DecidableEq, Repr

/-- Origin and path of the configured callback (`--callback-url`). -/
structure UrlParts where
  origin : String
  path : String
deriving DecidableEq, Repr

/-- An HTTP response the listener explicitly sends back to a requester. -/
structure HttpResponse where
  status : Nat
  contentType : String
  body : String
deriving DecidableEq, Repr

/-- What a listener-side closure does with one request: the value handed back
to `process_request`, plus the response (if any) explicitly sent to the
requester.  `responded = none` means the request was dropped without the
confirmation page (`tiny_http` then just closes it). -/
structure ServerReply (α : Type) where
  outcome : VOutcome α
  responded : Option HttpResponse
deriving DecidableEq, Repr

namespace AuthServer

/-- Transcription of `AuthServer::response_with_default_message`:
`Response::from_string` (status 200) with the
`Content-Type: text/html; charset=UTF-8` header and the fixed page. -/
def default_message_response : HttpResponse where
  status := 200
  contentType := "text/html; charset=UTF-8"
  body := "<!doctype html><html lang=\"en\"><script>window.close();</script><head><meta charset=utf-8><title>Doken</title></head><body>Successfully signed in. Close current tab.</body></html>"

/-- The closure `AuthServer::get_code` passes to `process_request`
(`src/lib/auth_server.rs` lines 101-129): find `state` and `code` among the
query pairs of the request URL; when both are present and the state equals
the CSRF secret, respond with the default message and resolve with the code;
otherwise ignore the request (no response is sent).  Note the closure never
inspects the path or origin of the request. -/
def get_code_step (csrf : String) (r : HttpRequest) : ServerReply String :=
  match findParam r.queryPairs "state", findParam r.queryPairs "code" with
  | some state, some code =>
      if state.2 = csrf then
        { outcome := .resolved code.2, responded := some default_message_response }
      else
        { outcome := .ignored, responded := none }
  | _, _ => { outcome := .ignored, responded := none }

/-- The closure `AuthServer::get_token_data` passes to `process_request`
(`src/lib/auth_server.rs` lines 138-191).  For a POST the form body is
parsed, and each of `access_token`, `expires_in`, `state` is looked up with
`expect` — a missing field is a panic.  When the state equals the CSRF
secret the default message is sent and the `TokenInfo` is built; inside that
construction `expires_in.parse::<u64>().expect(..)` panics on a non-numeric
value — after the response has already been sent.  Any other method is
ignored. -/
def get_token_data_step (csrf : String) (now : Nat) (r : HttpRequest) :
    ServerReply TokenInfo :=
  match r.method with
  | "POST" =>
      let form_params := form_urlencoded_parse r.body
      match findParam form_params "access_token" with
      | none =>
          { outcome := .panicked "Cannot find access_token in the HTTP Post request.",
            responded := none }
      | some access_token =>
        match findParam form_params "expires_in" with
        | none =>
            { outcome := .panicked "Cannot find expires_in in the HTTP Post request.",
              responded := none }
        | some expires_in =>
          match findParam form_params "state" with
          | none =>
              { outcome := .panicked "Cannot find state in the HTTP Post request.",
                responded := none }
          | some state =>
            if state.2 = csrf then
              match parseU64 expires_in.2 with
              | none =>
                  { outcome := .panicked "expires_in is an incorrect number",
                    responded := some default_message_response }
              | some e =>
                  { outcome := .resolved
                      { access_token := access_token.2
                        refresh_token := none
                        expires := some (now + e)
                        scope := none }
                    responded := some default_message_response }
            else
              { outcome := .ignored, responded := none }
  | _ => { outcome := .ignored, responded := none }

/-- The serving task of `AuthServer::process_request` (lines 69-83): requests
are handled strictly in arrival order; the first one on which the closure
returns `Some` is sent on the oneshot channel and the loop breaks; a `None`
is ignored and the loop continues; a panic inside the closure kills the task
(dropping the channel sender), so no later request is ever processed. -/
def request_loop {α : Type} (f : HttpRequest → ServerReply α) :
    List HttpRequest → VOutcome α
  | [] => .ignored
  | r :: rest =>
    match (f r).outcome with
    | .resolved v => .resolved v
    | .ignored => request_loop f rest
    | .panicked m => .panicked m

/-- The requests the serving task actually hands to the closure before it
stops (it stops after the first `Some`, and a panic stops it as well). -/
def requests_processed {α : Type} (f : HttpRequest → ServerReply α) :
    List HttpRequest → List HttpRequest
  | [] => []
  | r :: rest =>
    match (f r).outcome with
    | .resolved _ => [r]
    | .ignored => r :: requests_processed f rest
    | .panicked _ => [r]

/-- Outcome of the listener flow: the `tokio::select!` of
`AuthServer::process_request` has only the sleep branch and the oneshot
receiver branch, so the flow ends in a result or in the `Timeout` error. -/
inductive ServerOutcome (α : Type) where
  | ok : α → ServerOutcome α
  | timeoutErr : ServerOutcome α
deriving DecidableEq, Repr

/-- `AuthServer::process_request` (lines 50-94): the select between the
timeout sleep and the oneshot receiver.  `resolveAt` is the time at which the
serving task sends its result, when it does; if the loop resolves no later
than the timeout the result wins, otherwise — including when the loop
ignored every event, is still blocked, or its task panicked (the dropped
sender disables the `Ok(response)` branch of the select) — the sleep wins
and the flow returns the `Timeout` error.  Ties go to the result branch;
no theorem below depends on a tie. -/
def process_request {α : Type} (timeout resolveAt : Nat)
    (f : HttpRequest → ServerReply α) (events : List HttpRequest) :
    ServerOutcome α :=
  match request_loop f events with
  | .resolved v => if resolveAt ≤ timeout then .ok v else .timeoutErr
  | .ignored => .timeoutErr
  | .panicked _ => .timeoutErr

end AuthServer

namespace AuthBrowser

/-- Fixed body used to fulfill a matching intercepted request that resolved
the flow. -/
def CONTENT_OK : String := "<html><head></head><body><h1>OK</h1></body></html>"

/-- Fixed body used to fulfill a matching intercepted request that was
ignored. -/
def CONTENT_NOT_OK : String := "<html><head></head><body><h1>NOT OK</h1></body></html>"

/-- The closure `AuthBrowser::get_code` passes to `process_request`
(`src/auth_browser.rs` lines 216-242): same query-pair logic as the listener
version, without any explicit response (fulfilment happens in the intercept
loop). -/
def get_code_step (csrf : String) (e : HttpRequest) : VOutcome String :=
  match findParam e.queryPairs "state", findParam e.queryPairs "code" with
  | some state, some code =>
      if state.2 = csrf then .resolved code.2 else .ignored
  | _, _ => .ignored

/-- The closure `AuthBrowser::get_token_data` passes to `process_request`
(`src/auth_browser.rs` lines 257-307): for a "POST" event,
`event.request.post_data.as_ref().unwrap()` panics when the body is absent;
then the same field lookups and `expect`s as the listener version, without
any explicit response. -/
def get_token_data_step (csrf : String) (now : Nat) (e : HttpRequest) :
    VOutcome TokenInfo :=
  match e.method with
  | "POST" =>
    match e.post_data with
    | none => .panicked "called Option::unwrap() on a None value"
    | some body =>
      let form_params := form_urlencoded_parse body
      match findParam form_params "access_token" with
      | none => .panicked "Cannot find access_token in the HTTP Post request."
      | some access_token =>
        match findParam form_params "expires_in" with
        | none => .panicked "Cannot find expires_in in the HTTP Post request."
        | some expires_in =>
          match findParam form_params "state" with
          | none => .panicked "Cannot find state in the HTTP Post request."
          | some state =>
            if state.2 = csrf then
              match parseU64 expires_in.2 with
              | none => .panicked "expires_in is an incorrect number"
              | some e2 =>
                  .resolved
                    { access_token := access_token.2
                      refresh_token := none
                      expires := some (now + e2)
                      scope := none }
            else .ignored
  | _ => .ignored

/-- What the intercept task does with one paused event: fulfill it locally
with a fixed body, or continue it unmodified to the network. -/
inductive InterceptAction where
  | fulfill : String → InterceptAction
  | continueRequest : InterceptAction
deriving DecidableEq, Repr

/-- The intercept task of `AuthBrowser::process_request` (lines 145-184): an
event whose request URL has the origin and path of the callback URL is fed
to the closure and fulfilled locally with `CONTENT_OK` or `CONTENT_NOT_OK`
according to whether the closure returned `Some`; a `Some` is then sent on
the oneshot channel and the loop breaks.  Every other event is continued to
the network untouched.  A panic inside the closure kills the task. -/
def intercept_loop {α : Type} (cb : UrlParts) (f : HttpRequest → VOutcome α) :
    List HttpRequest → VOutcome α
  | [] => .ignored
  | e :: rest =>
    if e.origin = cb.origin ∧ e.path = cb.path then
      match f e with
      | .resolved v => .resolved v
      | .ignored => intercept_loop cb f rest
      | .panicked m => .panicked m
    else
      intercept_loop cb f rest

/-- The per-event actions the intercept task performs, in order (the closure
runs before the fulfilment, so a panic inside it produces no action). -/
def intercept_actions {α : Type} (cb : UrlParts) (f : HttpRequest → VOutcome α) :
    List HttpRequest → List InterceptAction
  | [] => []
  | e :: rest =>
    if e.origin = cb.origin ∧ e.path = cb.path then
      match f e with
      | .resolved _ => [.fulfill CONTENT_OK]
      | .ignored => .fulfill CONTENT_NOT_OK :: intercept_actions cb f rest
      | .panicked _ => []
    else
      .continueRequest :: intercept_actions cb f rest

/-- Outcome of the browser flow's three-way `tokio::select!`
(lines 189-201). -/
inductive BrowserOutcome (α : Type) where
  | ok : α → BrowserOutcome α
  | timeoutErr : BrowserOutcome α
  | browserClosed : BrowserOutcome α
deriving DecidableEq, Repr

/-- The three-way `tokio::select!` of `AuthBrowser::process_request`:
`channel` is the validated result the intercept task sends, with its arrival
time, when there is one; `cancelAt` is the time the handler-watching task of
`AuthBrowser::new` (lines 45-53) signals `rx_handle` because the user closed
the browser; the sleep fires at `timeout`.  The earliest ready branch wins;
a loop that ends or dies without sending leaves the `Ok(response)` branch
disabled (`channel = none`).  Ties arbitrarily prefer the result, then
cancellation; no theorem below depends on a tie. -/
def race {α : Type} (timeout : Nat) (channel : Option (Nat × α))
    (cancelAt : Option Nat) : BrowserOutcome α :=
  match channel, cancelAt with
  | some (tc, v), some ta =>
      if tc ≤ timeout ∧ tc ≤ ta then .ok v
      else if ta ≤ timeout then .browserClosed
      else .timeoutErr
  | some (tc, v), none =>
      if tc ≤ timeout then .ok v else .timeoutErr
  | none, some ta =>
      if ta ≤ timeout then .browserClosed else .timeoutErr
  | none, none => .timeoutErr

/-- Teardown steps of `AuthBrowser::process_request` (lines 203-204), in
order: close the browser, await the intercept task.  The handler-watching
task spawned in `AuthBrowser::new` (line 45) has its `JoinHandle` discarded
at the spawn site, so no join of it occurs anywhere in the source. -/
inductive TeardownAction where
  | closeBrowser : TeardownAction
  | joinInterceptTask : TeardownAction
  | joinHandlerTask : TeardownAction
deriving DecidableEq, Repr

/-- The teardown trace `process_request` runs after the select, on every
outcome (lines 203-204). -/
def teardown : List TeardownAction := [.closeBrowser, .joinInterceptTask]

/-- `AuthBrowser::process_request` once the intercept task is running: the
race outcome paired with the teardown trace performed before returning,
which is the same on every outcome. -/
def process_request {α : Type} (timeout : Nat) (channel : Option (Nat × α))
    (cancelAt : Option Nat) : BrowserOutcome α × List TeardownAction :=
  (race timeout channel cancelAt, teardown)

/-- The page `wait_for_first_page` ends up with: an existing page fetched by
its target id, or the fresh `about:blank` page created as the fallback. -/
inductive BrowserPage where
  | existing : String → BrowserPage
  | newBlank : BrowserPage
deriving DecidableEq, Repr

/-- The loop of `AuthBrowser::wait_for_first_page` (`src/auth_browser.rs`
lines 64-92).  `pagesAt i` is what `browser.pages()` returns on the `i`-th
poll (an error propagates out through `?`).  When the list has a first page
the function returns it (`browser.get_page` on the id just listed is
modelled as succeeding); when it is empty and the retry counter is zero a
fresh blank page is created; otherwise the counter is decremented and the
loop polls again.  The source's single `match (pages.first(), retries)` is
split on the retry counter here, with identical page-found arms, so the
recursion is structural. -/
def wait_for_first_page_loop (pagesAt : Nat → Except String (List String)) :
    Nat → Nat → Except String BrowserPage
  | poll, 0 =>
    match pagesAt poll with
    | .error e => .error e
    | .ok pages =>
      match pages.head? with
      | some pid => .ok (.existing pid)
      | none => .ok .newBlank
  | poll, r + 1 =>
    match pagesAt poll with
    | .error e => .error e
    | .ok pages =>
      match pages.head? with
      | some pid => .ok (.existing pid)
      | none => wait_for_first_page_loop pagesAt (poll + 1) r

/-- `AuthBrowser::wait_for_first_page`: the loop starts with `retries = 10`
at the first poll. -/
def wait_for_first_page (pagesAt : Nat → Except String (List String)) :
    Except String BrowserPage :=
  wait_for_first_page_loop pagesAt 0 10

end AuthBrowser

/-- The callback URL used by the concrete instances below. -/
def callback : UrlParts where
  origin := "http://localhost:8081"
  path := "/"

/-- Implicit-grant callback: POST body with `access_token=abc`,
`expires_in=3600` and state `S`, as both a listener request and a browser
event. -/
def implicit_grant_request : HttpRequest where
  method := "POST"
  origin := "http://localhost:8081"
  path := "/"
  queryPairs := []
  body := "access_token=abc&expires_in=3600&state=S"
  post_data := some "access_token=abc&expires_in=3600&state=S"

/-- A POST callback whose body lacks the required `expires_in` field. -/
def missing_expires_in_request : HttpRequest where
  method := "POST"
  origin := "http://localhost:8081"
  path := "/"
  queryPairs := []
  body := "access_token=abc&state=S"
  post_data := some "access_token=abc&state=S"

/-- A POST callback whose `expires_in` is present but not a number. -/
def bad_expires_in_request : HttpRequest where
  method := "POST"
  origin := "http://localhost:8081"
  path := "/"
  queryPairs := []
  body := "access_token=abc&expires_in=xyz&state=S"
  post_data := some "access_token=abc&expires_in=xyz&state=S"

/-- A GET to a path other than the callback path, carrying a code and the
correct state. -/
def wrong_path_code_request : HttpRequest where
  method := "GET"
  origin := "http://localhost:8081"
  path := "/favicon.ico"
  queryPairs := [("code", "abc"), ("state", "S")]
  body := ""
  post_data := none

/-- A GET to the callback path carrying a code and a wrong state. -/
def wrong_state_request : HttpRequest where
  method := "GET"
  origin := "http://localhost:8081"
  path := "/"
  queryPairs := [("code", "abc"), ("state", "wrong")]
  body := ""
  post_data := none

/-- A GET to the callback path carrying a code and the correct state. -/
def valid_code_request : HttpRequest where
  method := "GET"
  origin := "http://localhost:8081"
  path := "/"
  queryPairs := [("code", "abc"), ("state", "S")]
  body := ""
  post_data := none

/-- A poll oracle under which the browser never reports any page. -/
def empty_pages_oracle : Nat → Except String (List String) :=
  fun _ => .ok []


/-! Helper lemmas shared by the claim theorems. -/

theorem request_loop_all_ignored {α : Type} (f : HttpRequest → ServerReply α)
    (events : List HttpRequest) (h : ∀ e ∈ events, (f e).outcome = .ignored) :
    AuthServer.request_loop f events = .ignored ∧
    AuthServer.requests_processed f events = events := by
  induction events with
  | nil => exact ⟨rfl, rfl⟩
  | cons e rest ih =>
    have he := h e (by simp)
    have hrest := ih fun x hx => h x (by simp [hx])
    constructor
    · rw [AuthServer.request_loop, he, hrest.1]
    · rw [AuthServer.requests_processed, he, hrest.2]

theorem intercept_loop_all_ignored {α : Type} (cb : UrlParts)
    (f : HttpRequest → VOutcome α) (events : List HttpRequest)
    (h : ∀ e ∈ events, f e = .ignored) :
    AuthBrowser.intercept_loop cb f events = .ignored := by
  induction events with
  | nil => rfl
  | cons e rest ih =>
    have he := h e (by simp)
    have hrest := ih fun x hx => h x (by simp [hx])
    rw [AuthBrowser.intercept_loop]
    by_cases hm : e.origin = cb.origin ∧ e.path = cb.path
    · rw [if_pos hm, he, hrest]
    · rw [if_neg hm, hrest]

theorem intercept_loop_resolved_inv {α : Type} (cb : UrlParts)
    (f : HttpRequest → VOutcome α) (events : List HttpRequest) (v : α)
    (h : AuthBrowser.intercept_loop cb f events = .resolved v) :
    ∃ x ∈ events, (x.origin = cb.origin ∧ x.path = cb.path) ∧ f x = .resolved v := by
  induction events with
  | nil => exact absurd h (by rw [AuthBrowser.intercept_loop]; simp)
  | cons e rest ih =>
    rw [AuthBrowser.intercept_loop] at h
    by_cases hm : e.origin = cb.origin ∧ e.path = cb.path
    · rw [if_pos hm] at h
      cases hfe : f e with
      | resolved w =>
        rw [hfe] at h
        cases h
        exact ⟨e, by simp, hm, hfe⟩
      | ignored =>
        rw [hfe] at h
        obtain ⟨x, hx, hxx⟩ := ih h
        exact ⟨x, by simp [hx], hxx⟩
      | panicked m =>
        rw [hfe] at h
        cases h
    · rw [if_neg hm] at h
      obtain ⟨x, hx, hxx⟩ := ih h
      exact ⟨x, by simp [hx], hxx⟩

/-! Claim theorems. -/

/-- C1: the claim says a callback to the right path whose payload lacks a
required field must fail with `MalformedCallback`, be ignored, and leave the
channel waiting for further events.  The code instead panics: on a POST body
without `expires_in` the validator hits the `expect`, the serving task dies,
a later fully valid callback is never processed, and the flow can only end
in the `Timeout` error — in both channels. -/
theorem C1_missing_field_panics :
    (AuthServer.get_token_data_step "S" 0 missing_expires_in_request).outcome =
      .panicked "Cannot find expires_in in the HTTP Post request." ∧
    AuthServer.request_loop (AuthServer.get_token_data_step "S" 0)
        [missing_expires_in_request, implicit_grant_request] =
      .panicked "Cannot find expires_in in the HTTP Post request." ∧
    (∀ timeout resolveAt : Nat, AuthServer.process_request timeout resolveAt
        (AuthServer.get_token_data_step "S" 0)
        [missing_expires_in_request, implicit_grant_request] = .timeoutErr) ∧
    AuthBrowser.get_token_data_step "S" 0 missing_expires_in_request =
      .panicked "Cannot find expires_in in the HTTP Post request." :=
  ⟨rfl, rfl, fun _ _ => rfl, rfl⟩

/-- C10: counterexample — at the concrete callback whose `expires_in` is
`xyz` and whose state matches, the validator does panic through the
`expect`, but the flow does not crash: the panic only kills the spawned
serving task, and the listener flow then returns the `Timeout` error, so
the claim's conclusion that the flow crashes rather than timing out is
false. -/
theorem C10_counterexample :
    (AuthServer.get_token_data_step "S" 0 bad_expires_in_request).outcome =
      .panicked "expires_in is an incorrect number" ∧
    AuthServer.process_request 100 0 (AuthServer.get_token_data_step "S" 0)
        [bad_expires_in_request] = .timeoutErr :=
  ⟨rfl, rfl⟩

/-- C10 (amended): in both channels' `get_token_data`, a POST whose state
matches the anti-forgery token but whose `expires_in` is present and does
not parse as a decimal unsigned 64-bit integer makes the validator panic
through the `expect`, instead of returning an error or ignoring the event;
the panic kills the spawned validator task rather than crashing the flow,
so no further event is ever processed and the listener flow ends in the
`Timeout` error for every timeout. -/
theorem C10_amended (csrf : String) (now : Nat) (r : HttpRequest)
    (av ev sv : String × String)
    (hm : r.method = "POST")
    (hpd : r.post_data = some r.body)
    (ha : findParam (form_urlencoded_parse r.body) "access_token" = some av)
    (he : findParam (form_urlencoded_parse r.body) "expires_in" = some ev)
    (hs : findParam (form_urlencoded_parse r.body) "state" = some sv)
    (hst : sv.2 = csrf)
    (hbad : parseU64 ev.2 = none) :
    (AuthServer.get_token_data_step csrf now r).outcome =
      .panicked "expires_in is an incorrect number" ∧
    AuthBrowser.get_token_data_step csrf now r =
      .panicked "expires_in is an incorrect number" ∧
    (∀ rest : List HttpRequest,
      AuthServer.request_loop (AuthServer.get_token_data_step csrf now)
        (r :: rest) = .panicked "expires_in is an incorrect number") ∧
    (∀ (rest : List HttpRequest) (timeout resolveAt : Nat),
      AuthServer.process_request timeout resolveAt
        (AuthServer.get_token_data_step csrf now) (r :: rest) = .timeoutErr) ∧
    (∀ (cb : UrlParts) (rest : List HttpRequest),
      r.origin = cb.origin ∧ r.path = cb.path →
      AuthBrowser.intercept_loop cb (AuthBrowser.get_token_data_step csrf now)
        (r :: rest) = .panicked "expires_in is an incorrect number") := by
  have hsrv : (AuthServer.get_token_data_step csrf now r).outcome =
      .panicked "expires_in is an incorrect number" := by
    simp only [AuthServer.get_token_data_step, hm, ha, he, hs, hst, hbad, if_true]
  have hbrw : AuthBrowser.get_token_data_step csrf now r =
      .panicked "expires_in is an incorrect number" := by
    simp only [AuthBrowser.get_token_data_step, hm, hpd, ha, he, hs, hst, hbad, if_true]
  have hloop : ∀ rest : List HttpRequest,
      AuthServer.request_loop (AuthServer.get_token_data_step csrf now)
        (r :: rest) = .panicked "expires_in is an incorrect number" := by
    intro rest
    rw [AuthServer.request_loop, hsrv]
  refine ⟨hsrv, hbrw, hloop, ?_, ?_⟩
  · intro rest timeout resolveAt
    simp [AuthServer.process_request, hloop rest]
  · intro cb rest hcb
    rw [AuthBrowser.intercept_loop, if_pos hcb, hbrw]

/-- C10 witness: the POST body `access_token=abc&expires_in=xyz&state=S`
with CSRF secret `S` panics in both channels, kills the serving loop even
with a valid callback queued behind it, and forces the listener flow into
the timeout error. -/
theorem C10_witness :
    (AuthServer.get_token_data_step "S" 0 bad_expires_in_request).outcome =
      .panicked "expires_in is an incorrect number" ∧
    AuthBrowser.get_token_data_step "S" 0 bad_expires_in_request =
      .panicked "expires_in is an incorrect number" ∧
    (∀ rest : List HttpRequest,
      AuthServer.request_loop (AuthServer.get_token_data_step "S" 0)
        (bad_expires_in_request :: rest) =
        .panicked "expires_in is an incorrect number") ∧
    (∀ (rest : List HttpRequest) (timeout resolveAt : Nat),
      AuthServer.process_request timeout resolveAt
        (AuthServer.get_token_data_step "S" 0)
        (bad_expires_in_request :: rest) = .timeoutErr) ∧
    (∀ (cb : UrlParts) (rest : List HttpRequest),
      bad_expires_in_request.origin = cb.origin ∧
        bad_expires_in_request.path = cb.path →
      AuthBrowser.intercept_loop cb (AuthBrowser.get_token_data_step "S" 0)
        (bad_expires_in_request :: rest) =
        .panicked "expires_in is an incorrect number") :=
  C10_amended "S" 0 bad_expires_in_request
    ("access_token", "abc") ("expires_in", "xyz") ("state", "S")
    rfl rfl rfl rfl rfl rfl rfl

/-- C4: counterexample — in the listener channel, a GET to a different path
(`/favicon.ico` instead of the callback path `/`) carrying a code and the
correct state does resolve the race, because the listener closure never
inspects the path. -/
theorem C4_counterexample :
    wrong_path_code_request.path ≠ callback.path ∧
    AuthServer.request_loop (AuthServer.get_code_step "S")
        [wrong_path_code_request] = .resolved "abc" ∧
    AuthServer.process_request 100 0 (AuthServer.get_code_step "S")
        [wrong_path_code_request] = .ok "abc" :=
  ⟨by decide, rfl, rfl⟩

/-- C4 (amended): the browser channel feeds an intercepted event to the
validator only when its origin and path match the callback URL — any other
event is continued to the network untouched and can never resolve the race,
and a browser-channel resolution always comes from a matching event accepted
by the validator; the listener channel, by contrast, never inspects path or
origin: its closure depends only on the query pairs, so any request on the
bound port with a code and the matching state resolves it. -/
theorem C4_amended {α : Type} (cb : UrlParts) (f : HttpRequest → VOutcome α)
    (e : HttpRequest) (rest : List HttpRequest) (csrf : String)
    (r : HttpRequest) (p o : String)
    (hm : ¬(e.origin = cb.origin ∧ e.path = cb.path)) :
    AuthBrowser.intercept_loop cb f (e :: rest) =
      AuthBrowser.intercept_loop cb f rest ∧
    AuthBrowser.intercept_actions cb f (e :: rest) =
      .continueRequest :: AuthBrowser.intercept_actions cb f rest ∧
    (∀ events v,
      AuthBrowser.intercept_loop cb (AuthBrowser.get_code_step csrf) events =
        .resolved v →
      ∃ x ∈ events, (x.origin = cb.origin ∧ x.path = cb.path) ∧
        AuthBrowser.get_code_step csrf x = .resolved v) ∧
    AuthServer.get_code_step csrf { r with path := p, origin := o } =
      AuthServer.get_code_step csrf r := by
  refine ⟨?_, ?_, ?_, rfl⟩
  · rw [AuthBrowser.intercept_loop, if_neg hm]
  · rw [AuthBrowser.intercept_actions, if_neg hm]
  · intro events v h
    exact intercept_loop_resolved_inv cb (AuthBrowser.get_code_step csrf) events v h

/-- C4 witness for the amended statement, at the concrete wrong-path event. -/
theorem C4_amended_witness :
    AuthBrowser.intercept_loop callback (AuthBrowser.get_code_step "S")
        [wrong_path_code_request] =
      AuthBrowser.intercept_loop callback (AuthBrowser.get_code_step "S") [] ∧
    AuthBrowser.intercept_actions callback (AuthBrowser.get_code_step "S")
        [wrong_path_code_request] =
      .continueRequest ::
        AuthBrowser.intercept_actions callback (AuthBrowser.get_code_step "S") [] ∧
    (∀ events v,
      AuthBrowser.intercept_loop callback (AuthBrowser.get_code_step "S") events =
        .resolved v →
      ∃ x ∈ events, (x.origin = callback.origin ∧ x.path = callback.path) ∧
        AuthBrowser.get_code_step "S" x = .resolved v) ∧
    AuthServer.get_code_step "S"
        { wrong_state_request with path := "/x", origin := "http://evil" } =
      AuthServer.get_code_step "S" wrong_state_request :=
  C4_amended callback (AuthBrowser.get_code_step "S") wrong_path_code_request []
    "S" wrong_state_request "/x" "http://evil" (by decide)

/-- C5: counterexample — a request to the callback path carrying a code and
a wrong state is accepted but is not answered with the fixed confirmation
page, although the claim says every accepted connection receives it. -/
theorem C5_counterexample :
    (AuthServer.get_code_step "S" wrong_state_request).responded = none ∧
    (AuthServer.get_code_step "S" wrong_state_request).outcome = .ignored :=
  ⟨rfl, rfl⟩

/-- C5 (amended): the listener sends the fixed confirmation page — status
200, `text/html`, the fixed body — exactly to the request that resolves the
race (code present and state matching the CSRF token); ignored requests are
dropped without it. -/
theorem C5_amended (csrf : String) (r : HttpRequest) :
    ((AuthServer.get_code_step csrf r).responded =
        some AuthServer.default_message_response ↔
      ∃ v, (AuthServer.get_code_step csrf r).outcome = .resolved v) ∧
    AuthServer.default_message_response.status = 200 ∧
    AuthServer.default_message_response.contentType = "text/html; charset=UTF-8" := by
  refine ⟨?_, rfl, rfl⟩
  rcases hs : findParam r.queryPairs "state" with _ | sv
  · simp [AuthServer.get_code_step, hs]
  · rcases hc : findParam r.queryPairs "code" with _ | cv
    · simp [AuthServer.get_code_step, hs, hc]
    · by_cases hst : sv.2 = csrf
      · simp [AuthServer.get_code_step, hs, hc, hst]
      · simp [AuthServer.get_code_step, hs, hc, hst]

/-- C6: implicit grant round trip — the form-post body
`access_token=abc&expires_in=3600&state=S` whose state equals the flow's
anti-forgery token `S` makes the listener flow return the token info with
access token "abc", expiry `now + 3600` seconds, and no refresh token or
scope; the browser validator extracts the same token info. -/
theorem C6_implicit_round_trip (now timeout resolveAt : Nat)
    (h : resolveAt < timeout) :
    AuthServer.process_request timeout resolveAt
        (AuthServer.get_token_data_step "S" now) [implicit_grant_request] =
      .ok { access_token := "abc", refresh_token := none,
            expires := some (now + 3600), scope := none } ∧
    AuthBrowser.get_token_data_step "S" now implicit_grant_request =
      .resolved { access_token := "abc", refresh_token := none,
                  expires := some (now + 3600), scope := none } := by
  constructor
  · have hloop : AuthServer.request_loop (AuthServer.get_token_data_step "S" now)
        [implicit_grant_request] =
        .resolved { access_token := "abc", refresh_token := none,
                    expires := some (now + 3600), scope := none } := by rfl
    simp [AuthServer.process_request, hloop, Nat.le_of_lt h]
  · rfl

/-- C6 witness at capture time 7, timeout 100, result arrival 0. -/
theorem C6_witness :
    AuthServer.process_request 100 0
        (AuthServer.get_token_data_step "S" 7) [implicit_grant_request] =
      .ok { access_token := "abc", refresh_token := none,
            expires := some (7 + 3600), scope := none } ∧
    AuthBrowser.get_token_data_step "S" 7 implicit_grant_request =
      .resolved { access_token := "abc", refresh_token := none,
                  expires := some (7 + 3600), scope := none } :=
  C6_implicit_round_trip 7 100 0 (by decide)

/-- C7: each race resolves at most once — in both channels, once an event
passes extraction and CSRF validation the loop sends the result and breaks:
the rest of the queue is never processed, the outcome is unchanged whatever
arrives afterwards, and on the browser side the matching event is fulfilled
with the OK page and no further action is performed. -/
theorem C7_resolves_once {α β : Type} (f : HttpRequest → ServerReply α)
    (g : HttpRequest → VOutcome β) (cb : UrlParts) (e : HttpRequest)
    (v : α) (w : β) (rest rest' : List HttpRequest)
    (h1 : (f e).outcome = .resolved v)
    (h2 : e.origin = cb.origin ∧ e.path = cb.path)
    (h3 : g e = .resolved w) :
    AuthServer.request_loop f (e :: rest) = .resolved v ∧
    AuthServer.requests_processed f (e :: rest) = [e] ∧
    AuthServer.request_loop f (e :: rest) =
      AuthServer.request_loop f (e :: rest') ∧
    AuthBrowser.intercept_loop cb g (e :: rest) = .resolved w ∧
    AuthBrowser.intercept_loop cb g (e :: rest) =
      AuthBrowser.intercept_loop cb g (e :: rest') ∧
    AuthBrowser.intercept_actions cb g (e :: rest) =
      [.fulfill AuthBrowser.CONTENT_OK] := by
  have hsrv : ∀ l, AuthServer.request_loop f (e :: l) = .resolved v := by
    intro l
    rw [AuthServer.request_loop, h1]
  have hbrw : ∀ l, AuthBrowser.intercept_loop cb g (e :: l) = .resolved w := by
    intro l
    rw [AuthBrowser.intercept_loop, if_pos h2, h3]
  refine ⟨hsrv rest, ?_, (hsrv rest).trans (hsrv rest').symm, hbrw rest,
    (hbrw rest).trans (hbrw rest').symm, ?_⟩
  · rw [AuthServer.requests_processed, h1]
  · rw [AuthBrowser.intercept_actions, if_pos h2, h3]

/-- C7 witness: a valid code callback followed by an identical copy resolves
with the code, processes only the first copy, and behaves as if the copy had
never arrived. -/
theorem C7_witness :
    AuthServer.request_loop (AuthServer.get_code_step "S")
        (valid_code_request :: [valid_code_request]) = .resolved "abc" ∧
    AuthServer.requests_processed (AuthServer.get_code_step "S")
        (valid_code_request :: [valid_code_request]) = [valid_code_request] ∧
    AuthServer.request_loop (AuthServer.get_code_step "S")
        (valid_code_request :: [valid_code_request]) =
      AuthServer.request_loop (AuthServer.get_code_step "S")
        (valid_code_request :: []) ∧
    AuthBrowser.intercept_loop callback (AuthBrowser.get_code_step "S")
        (valid_code_request :: [valid_code_request]) = .resolved "abc" ∧
    AuthBrowser.intercept_loop callback (AuthBrowser.get_code_step "S")
        (valid_code_request :: [valid_code_request]) =
      AuthBrowser.intercept_loop callback (AuthBrowser.get_code_step "S")
        (valid_code_request :: []) ∧
    AuthBrowser.intercept_actions callback (AuthBrowser.get_code_step "S")
        (valid_code_request :: [valid_code_request]) =
      [.fulfill AuthBrowser.CONTENT_OK] :=
  C7_resolves_once (AuthServer.get_code_step "S") (AuthBrowser.get_code_step "S")
    callback valid_code_request "abc" "abc" [valid_code_request] []
    rfl ⟨rfl, rfl⟩ rfl

/-- C8: counterexample — the teardown performed by `process_request` never
joins the handler-watching task: its join handle is discarded at the spawn
site in `AuthBrowser::new`, so the claim that both subscriber tasks are
joined before returning is false. -/
theorem C8_counterexample :
    AuthBrowser.TeardownAction.joinHandlerTask ∉ AuthBrowser.teardown := by
  decide

/-- C8 (amended): on every race outcome `process_request` closes the browser
and joins the interception task before returning; the handler-watching task
is not joined — its join handle is discarded at spawn — so only the
interception task is guaranteed finished when the flow returns. -/
theorem C8_amended {α : Type} (timeout : Nat) (channel : Option (Nat × α))
    (cancelAt : Option Nat) :
    (AuthBrowser.process_request timeout channel cancelAt).2 =
      [.closeBrowser, .joinInterceptTask] ∧
    AuthBrowser.TeardownAction.closeBrowser ∈
      (AuthBrowser.process_request timeout channel cancelAt).2 ∧
    AuthBrowser.TeardownAction.joinInterceptTask ∈
      (AuthBrowser.process_request timeout channel cancelAt).2 ∧
    AuthBrowser.TeardownAction.joinHandlerTask ∉
      (AuthBrowser.process_request timeout channel cancelAt).2 := by
  refine ⟨rfl, ?_, ?_, ?_⟩
  · show AuthBrowser.TeardownAction.closeBrowser ∈ AuthBrowser.teardown
    decide
  · show AuthBrowser.TeardownAction.joinInterceptTask ∈ AuthBrowser.teardown
    decide
  · show AuthBrowser.TeardownAction.joinHandlerTask ∉ AuthBrowser.teardown
    decide

/-- C2: the browser race produces exactly one of the three outcomes, and
whenever the cancellation signal fires strictly before the timeout and
strictly before any matching callback, the race returns the browser-closed
error and not the timeout error, for every timeout duration. -/
theorem C2_cancellation_preempts_timeout {α : Type} (timeout ta : Nat)
    (channel : Option (Nat × α)) (h1 : ta < timeout)
    (h2 : ∀ tc v, channel = some (tc, v) → ta < tc) :
    AuthBrowser.race timeout channel (some ta) = .browserClosed ∧
    AuthBrowser.race timeout channel (some ta) ≠ .timeoutErr ∧
    (∀ (t : Nat) (ch : Option (Nat × α)) (ca : Option Nat),
      (∃ u, AuthBrowser.race t ch ca = .ok u) ∨
      AuthBrowser.race t ch ca = .timeoutErr ∨
      AuthBrowser.race t ch ca = .browserClosed) := by
  have hmain : AuthBrowser.race timeout channel (some ta) = .browserClosed := by
    rcases channel with _ | ⟨tc, v⟩
    · rw [AuthBrowser.race, if_pos (Nat.le_of_lt h1)]
    · have htc : ta < tc := h2 tc v rfl
      have hnot : ¬(tc ≤ timeout ∧ tc ≤ ta) :=
        fun hcon => absurd hcon.2 (Nat.not_le_of_lt htc)
      rw [AuthBrowser.race, if_neg hnot, if_pos (Nat.le_of_lt h1)]
  refine ⟨hmain, by rw [hmain]; exact fun hcon => AuthBrowser.BrowserOutcome.noConfusion hcon, ?_⟩
  intro t ch ca
  cases hr : AuthBrowser.race t ch ca with
  | ok u => exact Or.inl ⟨u, rfl⟩
  | timeoutErr => exact Or.inr (Or.inl rfl)
  | browserClosed => exact Or.inr (Or.inr rfl)

/-- C2 witness: cancellation at time 3 beats a long timeout of 1000 and a
callback that would only arrive at time 7. -/
theorem C2_witness :
    AuthBrowser.race 1000 (some (7, "abc")) (some 3) = .browserClosed ∧
    AuthBrowser.race 1000 (some (7, "abc")) (some 3) ≠ .timeoutErr ∧
    (∀ (t : Nat) (ch : Option (Nat × String)) (ca : Option Nat),
      (∃ u, AuthBrowser.race t ch ca = .ok u) ∨
      AuthBrowser.race t ch ca = .timeoutErr ∨
      AuthBrowser.race t ch ca = .browserClosed) :=
  C2_cancellation_preempts_timeout 1000 3 (some (7, "abc")) (by decide)
    (fun tc v hv => by
      injection hv with h
      injection h with h1 h2
      subst h1
      decide)

/-- C3: a callback to the callback path carrying a code and a state that
differs from the anti-forgery token never resolves and never aborts the race
in either channel: the validators ignore it, the listener loop processes
every such event and keeps going, and with no later matching callback the
flow can only end in the timeout error. -/
theorem C3_wrong_state_ignored (csrf : String) (events : List HttpRequest)
    (h : ∀ e ∈ events, ∃ sv cv, findParam e.queryPairs "state" = some sv ∧
        findParam e.queryPairs "code" = some cv ∧ sv.2 ≠ csrf) :
    AuthServer.request_loop (AuthServer.get_code_step csrf) events = .ignored ∧
    AuthServer.requests_processed (AuthServer.get_code_step csrf) events = events ∧
    (∀ timeout resolveAt : Nat, AuthServer.process_request timeout resolveAt
        (AuthServer.get_code_step csrf) events = .timeoutErr) ∧
    (∀ cb : UrlParts, AuthBrowser.intercept_loop cb
        (AuthBrowser.get_code_step csrf) events = .ignored) := by
  have hsrv : ∀ e ∈ events, (AuthServer.get_code_step csrf e).outcome = .ignored := by
    intro e he
    obtain ⟨sv, cv, hs, hc, hne⟩ := h e he
    simp [AuthServer.get_code_step, hs, hc, hne]
  have hbrw : ∀ e ∈ events, AuthBrowser.get_code_step csrf e = .ignored := by
    intro e he
    obtain ⟨sv, cv, hs, hc, hne⟩ := h e he
    simp [AuthBrowser.get_code_step, hs, hc, hne]
  obtain ⟨hl, hp⟩ := request_loop_all_ignored _ events hsrv
  refine ⟨hl, hp, ?_, ?_⟩
  · intro timeout resolveAt
    simp [AuthServer.process_request, hl]
  · intro cb
    exact intercept_loop_all_ignored cb _ events hbrw

/-- C3 witness: a single wrong-state callback is ignored by both channels
and the listener flow times out. -/
theorem C3_witness :
    AuthServer.request_loop (AuthServer.get_code_step "S")
        [wrong_state_request] = .ignored ∧
    AuthServer.requests_processed (AuthServer.get_code_step "S")
        [wrong_state_request] = [wrong_state_request] ∧
    (∀ timeout resolveAt : Nat, AuthServer.process_request timeout resolveAt
        (AuthServer.get_code_step "S") [wrong_state_request] = .timeoutErr) ∧
    (∀ cb : UrlParts, AuthBrowser.intercept_loop cb
        (AuthBrowser.get_code_step "S") [wrong_state_request] = .ignored) :=
  C3_wrong_state_ignored "S" [wrong_state_request] (by
    intro e he
    rw [List.mem_singleton] at he
    subst he
    exact ⟨("state", "wrong"), ("code", "abc"), rfl, rfl, by decide⟩)

/-- Characterization of the retry loop of `wait_for_first_page`: within a
window of error-free polls, the loop returns the first listed page when one
appears, and otherwise creates the blank page after exhausting the retry
budget. -/
theorem wait_loop_characterization
    (pagesAt : Nat → Except String (List String)) :
    ∀ retries poll : Nat,
    (∀ i, poll ≤ i → i ≤ poll + retries → ∃ l, pagesAt i = .ok l) →
    (∃ i pid l, poll ≤ i ∧ i ≤ poll + retries ∧ pagesAt i = .ok l ∧
      l.head? = some pid ∧
      AuthBrowser.wait_for_first_page_loop pagesAt poll retries =
        .ok (.existing pid)) ∨
    (AuthBrowser.wait_for_first_page_loop pagesAt poll retries = .ok .newBlank ∧
      ∀ i l, poll ≤ i → i ≤ poll + retries → pagesAt i = .ok l →
        l.head? = none) := by
  intro retries
  induction retries with
  | zero =>
    intro poll h
    obtain ⟨l, hl⟩ := h poll (le_refl _) (by omega)
    cases hh : l.head? with
    | some pid =>
      have heq : AuthBrowser.wait_for_first_page_loop pagesAt poll 0 =
          .ok (.existing pid) := by
        simp only [AuthBrowser.wait_for_first_page_loop, hl, hh]
      exact Or.inl ⟨poll, pid, l, le_refl _, by omega, hl, hh, heq⟩
    | none =>
      have heq : AuthBrowser.wait_for_first_page_loop pagesAt poll 0 =
          .ok .newBlank := by
        simp only [AuthBrowser.wait_for_first_page_loop, hl, hh]
      refine Or.inr ⟨heq, ?_⟩
      intro i l' hi1 hi2 hl'
      have hip : i = poll := by omega
      subst hip
      rw [hl] at hl'
      injection hl' with hll
      rw [← hll]
      exact hh
  | succ r ih =>
    intro poll h
    obtain ⟨l, hl⟩ := h poll (le_refl _) (by omega)
    cases hh : l.head? with
    | some pid =>
      have heq : AuthBrowser.wait_for_first_page_loop pagesAt poll (r + 1) =
          .ok (.existing pid) := by
        simp only [AuthBrowser.wait_for_first_page_loop, hl, hh]
      exact Or.inl ⟨poll, pid, l, le_refl _, by omega, hl, hh, heq⟩
    | none =>
      have heq : AuthBrowser.wait_for_first_page_loop pagesAt poll (r + 1) =
          AuthBrowser.wait_for_first_page_loop pagesAt (poll + 1) r := by
        simp only [AuthBrowser.wait_for_first_page_loop, hl, hh]
      have hrec := ih (poll + 1) (fun i hi1 hi2 => h i (by omega) (by omega))
      rcases hrec with ⟨i, pid, l', hi1, hi2, hli, hhi, hres⟩ | ⟨hres, hall⟩
      · exact Or.inl ⟨i, pid, l', by omega, by omega, hli, hhi, heq.trans hres⟩
      · refine Or.inr ⟨heq.trans hres, ?_⟩
        intro i l' hi1 hi2 hl'
        by_cases hip : i = poll
        · subst hip
          rw [hl] at hl'
          injection hl' with hll
          rw [← hll]
          exact hh
        · exact hall i l' (by omega) (by omega) hl'

/-- C9: `wait_for_first_page` terminates for every browser state — when some
poll within the retry budget (the first poll plus ten retries) reports a
page, the function returns that page, and when the pages list stays empty
throughout, it falls back to creating a fresh blank page after the bounded
number of retries. -/
theorem C9_wait_for_first_page_terminates
    (pagesAt : Nat → Except String (List String))
    (h : ∀ i, i ≤ 10 → ∃ l, pagesAt i = .ok l) :
    (∃ i pid l, i ≤ 10 ∧ pagesAt i = .ok l ∧ l.head? = some pid ∧
      AuthBrowser.wait_for_first_page pagesAt = .ok (.existing pid)) ∨
    (AuthBrowser.wait_for_first_page pagesAt = .ok .newBlank ∧
      ∀ i l, i ≤ 10 → pagesAt i = .ok l → l.head? = none) := by
  have hc := wait_loop_characterization pagesAt 10 0
    (fun i hi1 hi2 => h i (by omega))
  rcases hc with ⟨i, pid, l, hi1, hi2, hli, hhi, hres⟩ | ⟨hres, hall⟩
  · exact Or.inl ⟨i, pid, l, by omega, hli, hhi, hres⟩
  · exact Or.inr ⟨hres, fun i l hi hl => hall i l (by omega) (by omega) hl⟩

/-- C9 witness: under an oracle that never reports a page the function falls
back to the fresh blank page. -/
theorem C9_witness :
    (∃ i pid l, i ≤ 10 ∧ empty_pages_oracle i = .ok l ∧ l.head? = some pid ∧
      AuthBrowser.wait_for_first_page empty_pages_oracle = .ok (.existing pid)) ∨
    (AuthBrowser.wait_for_first_page empty_pages_oracle = .ok .newBlank ∧
      ∀ i l, i ≤ 10 → empty_pages_oracle i = .ok l → l.head? = none) :=
  C9_wait_for_first_page_terminates empty_pages_oracle (fun _ _ => ⟨[], rfl⟩)

end Doken
